import Mathlib

/-!
Verification of the crank governor (src/main.rs) against its specification.

This file shallowly embeds the data model and the pure logic of the governor
control loop: task/run state, dependency gating, reconciliation
(sync_completion_and_progress), the unattended escalate policy, the stall
probe, failure backoff, config validation, and event-log sanitization.
Filesystem and clock effects are modelled by an explicit environment record.
Machine integers (u32/u64/i64) are modelled as Nat/Int with explicit
saturation/casting where the source relies on it.
-/

namespace Crank

/-- Terminal/lifecycle status of a task (enum TaskStatus in main.rs). -/
inductive TaskStatus where
  | pending
  | running
  | completed
  | blockedBestEffort
deriving DecidableEq, Repr

/-- `TaskStatus::is_terminal`. -/
def TaskStatus.is_terminal : TaskStatus → Bool
  | .completed => true
  | .blockedBestEffort => true
  | _ => false

/-- `TaskStatus::as_str`. -/
def TaskStatus.as_str : TaskStatus → String
  | .pending => "pending"
  | .running => "running"
  | .completed => "completed"
  | .blockedBestEffort => "blocked_best_effort"

/-- Run lifecycle status (enum RunStatus in main.rs). -/
inductive RunStatus where
  | running
  | completed
  | failedTerminal
deriving DecidableEq, Repr

/-- Runtime task record (struct TaskRuntime in main.rs). Epochs are i64,
counters u32; modelled as Int/Nat. -/
structure TaskRuntime where
  id : String
  todo_file : String
  depends_on : List String
  status : TaskStatus
  coord_dir : String
  completion_file : Option String
  started_at : Option String
  completed_at : Option String
  blocked_reason : Option String
  last_progress_epoch : Option Int
  recovery_attempts : Nat
  unattended_escalate_retries : Nat
deriving DecidableEq, Repr

/-- Run state record (struct RunState in main.rs). -/
structure RunState where
  run_id : String
  workspace : String
  state_dir : String
  unattended : Bool
  status : RunStatus
  started_at : String
  updated_at : String
  journal_path : String
  thread_id : Option String
  cycle : Nat
  last_turn_at : Option String
  tasks : List TaskRuntime
deriving DecidableEq, Repr

/-- Recovery parameters (struct RecoveryConfig in main.rs); all u64/u32. -/
structure RecoveryConfig where
  max_recovery_attempts_per_task : Nat
  max_failures_before_block : Nat
  backoff_initial_secs : Nat
  backoff_max_secs : Nat
deriving DecidableEq, Repr

/-- The defaults from main.rs (`default_*` serde helpers per the config docs). -/
def RecoveryConfig.defaults : RecoveryConfig :=
  { max_recovery_attempts_per_task := 4
    max_failures_before_block := 6
    backoff_initial_secs := 5
    backoff_max_secs := 120 }

/-- Unattended escalate policy (enum UnattendedEscalatePolicy in main.rs). -/
inductive UnattendedEscalatePolicy where
  | strict
  | bestEffortOnce
deriving DecidableEq, Repr

/-- `UnattendedEscalatePolicy::as_str`. -/
def UnattendedEscalatePolicy.as_str : UnattendedEscalatePolicy → String
  | .strict => "strict"
  | .bestEffortOnce => "best_effort_once"

/-- Escalate decision (enum EscalateHandling in main.rs). -/
inductive EscalateHandling where
  | ignore
  | retry
  | block
deriving DecidableEq, Repr

/-- Environment: the filesystem probes and the clock that the governor
consults, abstracted as pure functions so one loop step is a function of
state and environment. -/
structure Env where
  /-- `Path::new(completion_file).exists()` keyed by path. -/
  completion_file_exists : String → Bool
  /-- `check_coord_done(coord_dir)`: coord `state.md` trims to `done`. -/
  coord_done : String → Bool
  /-- `latest_progress_epoch(coord_dir)`: newest mtime over coord artifacts. -/
  latest_progress_epoch : String → Option Int
  /-- `now_epoch()`. -/
  now_epoch : Int
  /-- `now_iso()`. -/
  now_iso : String

/-- Largest u64 value. -/
def u64Max : Nat := 2 ^ 64 - 1

/-- Largest u32 value. -/
def u32Max : Nat := 2 ^ 32 - 1

/-- `u64::saturating_mul`. -/
def satMul64 (a b : Nat) : Nat := min (a * b) u64Max

/-- `u32::saturating_add` of one. -/
def satAddOne32 (n : Nat) : Nat := min (n + 1) u32Max

/-- `i64::saturating_sub`. -/
def satSubI64 (a b : Int) : Int := max (min (a - b) (2 ^ 63 - 1)) (-(2 ^ 63))

/-- Rust `u64 as i64` cast (two's-complement reinterpretation). -/
def u64AsI64 (n : Nat) : Int :=
  let m : Nat := n % 2 ^ 64
  if m < 2 ^ 63 then (m : Int) else (m : Int) - 2 ^ 64

/-- `compute_backoff_secs` (main.rs:1873-1878): shift capped at 10,
saturating multiply, result clamped to `[1, max(backoff_max_secs, 1)]`. -/
def compute_backoff_secs (recovery : RecoveryConfig) (failures : Nat) : Nat :=
  let shift := min (failures - 1) 10
  let mult := 2 ^ shift
  let raw := satMul64 recovery.backoff_initial_secs mult
  min (max raw 1) (max recovery.backoff_max_secs 1)

/-- The spec's backoff formula taken literally (section 4.6 / claim C6):
`min(max, initial * 2^(failures-1))` clamped to at least 1, with exact
(unbounded) arithmetic and no cap on the exponent. -/
def spec_backoff_secs (recovery : RecoveryConfig) (failures : Nat) : Nat :=
  max (min recovery.backoff_max_secs (recovery.backoff_initial_secs * 2 ^ (failures - 1))) 1

/-- `task_done_by_artifact` (main.rs:1073-1078). -/
def task_done_by_artifact (env : Env) (t : TaskRuntime) : Bool :=
  match t.completion_file with
  | some completion => env.completion_file_exists completion
  | none => env.coord_done t.coord_dir

/-- The per-task body of `sync_completion_and_progress` (main.rs:1080-1098):
fold newest coord progress into a running task, then complete any
non-terminal task whose completion artifact exists. -/
def syncTask (env : Env) (t : TaskRuntime) : TaskRuntime :=
  let t1 :=
    if t.status = .running then
      match env.latest_progress_epoch t.coord_dir with
      | some ts =>
          { t with
            last_progress_epoch :=
              some (match t.last_progress_epoch with
                    | some cur => max cur ts
                    | none => ts) }
      | none => t
    else t
  if (!t1.status.is_terminal && task_done_by_artifact env t1) = true then
    { t1 with
      status := .completed
      completed_at := match t1.completed_at with
                      | some c => some c
                      | none => some env.now_iso
      blocked_reason := none
      last_progress_epoch := some env.now_epoch }
  else t1

/-- `sync_completion_and_progress` over the whole run state. -/
def sync_completion_and_progress (env : Env) (s : RunState) : RunState :=
  { s with tasks := s.tasks.map (syncTask env) }

/-- `deps_satisfied` (main.rs:1039-1054): every dependency id must name a
task in the run and that task must be terminal. -/
def deps_satisfied (s : RunState) (idx : Nat) : Bool :=
  match s.tasks[idx]? with
  | none => false
  | some task =>
      task.depends_on.all fun dep =>
        match s.tasks.find? (fun t => t.id == dep) with
        | some dep_task => dep_task.status.is_terminal
        | none => false

/-- `choose_next_pending_task` (main.rs:1056-1063): first pending task whose
dependencies are satisfied. -/
def choose_next_pending_task (s : RunState) : Option Nat :=
  (List.range s.tasks.length).find? fun idx =>
    match s.tasks[idx]? with
    | some t => t.status == .pending && deps_satisfied s idx
    | none => false

/-- `all_terminal` (main.rs:1065-1067). -/
def all_terminal (s : RunState) : Bool :=
  s.tasks.all fun t => t.status.is_terminal

/-- `mark_task_started` (main.rs:1100-1110), minus directory creation. -/
def mark_task_started (env : Env) (t : TaskRuntime) : TaskRuntime :=
  { t with
    status := .running
    blocked_reason := none
    started_at := match t.started_at with
                  | some v => some v
                  | none => some env.now_iso }

/-- `mark_task_blocked` (main.rs:1112-1117). -/
def mark_task_blocked (env : Env) (t : TaskRuntime) (reason : String) : TaskRuntime :=
  { t with
    status := .blockedBestEffort
    completed_at := some env.now_iso
    blocked_reason := some reason
    last_progress_epoch := some env.now_epoch }

/-- Replace the task at `idx` (Rust's in-place `state.tasks[idx] = ...`). -/
def setTask (s : RunState) (idx : Nat) (t : TaskRuntime) : RunState :=
  { s with tasks := s.tasks.set idx t }

/-- ASCII lowercase of one character (`u8::to_ascii_lowercase`). -/
def asciiLower (c : Char) : Char :=
  if 'A' ≤ c ∧ c ≤ 'Z' then Char.ofNat (c.toNat + 32) else c

/-- `str::eq_ignore_ascii_case`. -/
def eqIgnoreAsciiCase (a b : String) : Bool :=
  a.toList.map asciiLower == b.toList.map asciiLower

/-- `str::trim` on a character list. -/
def trimChars (s : List Char) : List Char :=
  ((s.dropWhile Char.isWhitespace).reverse.dropWhile Char.isWhitespace).reverse

/-- `str::trim` on a string. -/
def trimString (s : String) : String :=
  String.mk (trimChars s.toList)

/-- The `next_action` escalate test in `decide_unattended_escalate`
(main.rs:1241-1243). -/
def is_action_escalate (next_action : Option String) : Bool :=
  (next_action.map fun v => eqIgnoreAsciiCase v "ESCALATE").getD false

/-- The `status` escalate test in `decide_unattended_escalate`
(main.rs:1244-1249): the trimmed status must equal, ignoring ASCII case,
exactly `blocked` or `blocked_best_effort`. -/
def is_status_escalate (control_status : Option String) : Bool :=
  (control_status.map fun v =>
    let s := trimString v
    eqIgnoreAsciiCase s "blocked" || eqIgnoreAsciiCase s "blocked_best_effort").getD false

/-- `decide_unattended_escalate` (main.rs:1231-1266). The Rust function
mutates the task's retry counter in place; here the (possibly updated)
task is returned alongside the decision. -/
def decide_unattended_escalate (unattended : Bool) (policy : UnattendedEscalatePolicy)
    (task : TaskRuntime) (control_status : Option String) (next_action : Option String) :
    EscalateHandling × TaskRuntime :=
  if unattended = false then (.ignore, task)
  else if (is_action_escalate next_action || is_status_escalate control_status) = false then
    (.ignore, task)
  else
    match policy with
    | .strict => (.block, task)
    | .bestEffortOnce =>
        if task.unattended_escalate_retries = 0 then
          (.retry, { task with unattended_escalate_retries := 1 })
        else (.block, task)

/-- The reason string built in the `EscalateHandling::Block` arm of
`run_governor` (main.rs:2110-2113). -/
def escalate_block_reason (policy : UnattendedEscalatePolicy) : String :=
  "orchestrator requested ESCALATE in unattended mode (policy=" ++ policy.as_str ++ ")"

/-- The post-turn reconcile-and-block step of `run_governor`
(main.rs:2124-2131): sync completion, then apply a pending escalate block
unless reconciliation marked the active task `Completed`. -/
def apply_escalate_block (env : Env) (s : RunState) (idx : Nat)
    (reason : Option String) : RunState :=
  let s1 := sync_completion_and_progress env s
  match reason with
  | none => s1
  | some r =>
      match s1.tasks[idx]? with
      | some t =>
          if t.status = .completed then s1
          else setTask s1 idx (mark_task_blocked env t r)
      | none => s1

/-- The whole control-block escalate path of one successful turn
(main.rs:2087-2131, journaling elided): run the policy on the active task,
write the updated task back, then reconcile and apply any block decision. -/
def process_control_escalate (env : Env) (unattended : Bool)
    (policy : UnattendedEscalatePolicy) (s : RunState) (idx : Nat)
    (control_status next_action : Option String) : RunState :=
  match s.tasks[idx]? with
  | none => s
  | some t =>
      let d := decide_unattended_escalate unattended policy t control_status next_action
      let s1 := setTask s idx d.2
      let reason :=
        match d.1 with
        | .block => some (escalate_block_reason policy)
        | _ => none
      apply_escalate_block env s1 idx reason

/-- Outcome of the stall probe for one iteration. -/
inductive StallOutcome where
  | blocked (reason : String)
  | note (text : String)
  | proceed
deriving DecidableEq, Repr

/-- The stall probe of `run_governor` (main.rs:1976-2013): seed
`last_progress_epoch` with `now` for a fresh task, then compare the age
against `stall_secs`; on a stall either block (attempts exhausted) or bump
the attempt counter and attach a recovery note. `stall_secs` is u64 cast
`as i64` for the comparison. -/
def stall_probe (env : Env) (stall_secs : Nat) (max_recovery_attempts : Nat)
    (task : TaskRuntime) : StallOutcome × TaskRuntime :=
  let now := env.now_epoch
  let t :=
    match task.last_progress_epoch with
    | none => { task with last_progress_epoch := some now }
    | some _ => task
  match t.last_progress_epoch with
  | none => (.proceed, t)
  | some last =>
      let age := satSubI64 now last
      if age > u64AsI64 stall_secs then
        if t.recovery_attempts ≥ max_recovery_attempts then
          let reason :=
            "exceeded recovery attempts after " ++ toString age ++ "s without progress"
          (.blocked reason, mark_task_blocked env t reason)
        else
          let t1 := { t with recovery_attempts := satAddOne32 t.recovery_attempts }
          let text :=
            "Stall detected: no progress for " ++ toString age ++ "s (threshold "
              ++ toString stall_secs ++ "s). Recovery attempt "
              ++ toString t1.recovery_attempts ++ " of "
              ++ toString max_recovery_attempts ++ "."
          (.note text, t1)
      else (.proceed, t)

/-- Task entry of the parsed config (struct TaskConfig in main.rs). -/
structure TaskConfig where
  id : String
  todo_file : String
  depends_on : List String
  coord_dir : Option String
  completion_file : Option String
deriving DecidableEq, Repr

/-- The per-task loop of `load_config` (main.rs:952-960): reject an id that
trims to empty and reject duplicates via the `seen` set. -/
def check_task_ids (seen : List String) : List TaskConfig → Except String Unit
  | [] => .ok ()
  | t :: rest =>
      if trimString t.id = "" then .error "task id must not be empty"
      else if t.id ∈ seen then .error ("duplicate task id '" ++ t.id ++ "'")
      else check_task_ids (t.id :: seen) rest

/-- The validation performed by `load_config` after TOML parsing
(main.rs:942-963): non-empty task list, non-empty ids, unique ids. No other
check is performed; `depends_on` is never inspected. -/
def load_config_validate (tasks : List TaskConfig) : Except String Unit :=
  if tasks.isEmpty then .error "config.tasks must not be empty"
  else check_task_ids [] tasks

/-- Result of the active-task selection step. -/
inductive SelectResult where
  | active (idx : Nat) (s : RunState)
  | deadlock (s : RunState)
deriving DecidableEq, Repr

/-- The select-active step of `run_governor` (main.rs:1929-1958): keep an
already-running task, else promote the first eligible pending task, else
declare the run `FailedTerminal` (deadlock). -/
def governor_select (env : Env) (s : RunState) : SelectResult :=
  match s.tasks.findIdx? (fun t => t.status == .running) with
  | some idx => .active idx s
  | none =>
      match choose_next_pending_task s with
      | some next =>
          match s.tasks[next]? with
          | some t => .active next (setTask s next (mark_task_started env t))
          | none => .deadlock { s with status := .failedTerminal }
      | none => .deadlock { s with status := .failedTerminal }

/-! Event-log sanitization (main.rs:629-674). JSON values are modelled
structurally; strings as character lists, matching the char-wise Rust
operations (`s.chars()`). Numbers carry an integer payload (the claims never
touch numeric values). -/

/-- A parsed `serde_json::Value`. -/
inductive Json where
  | null : Json
  | bool : Bool → Json
  | num : Int → Json
  | str : List Char → Json
  | arr : List Json → Json
  | obj : List (List Char × Json) → Json

/-- `MAX_EVENT_OUTPUT_CHARS` (main.rs:629). -/
def MAX_EVENT_OUTPUT_CHARS : Nat := 1200

/-- The elision annotation appended by `truncate_event_field`
(main.rs:640-643): `"\n...[truncated {n} chars]"`. -/
def elision_marker (elided : Nat) : List Char :=
  '\n' :: "...[truncated ".toList ++ Nat.toDigits 10 elided ++ " chars]".toList

/-- The string rewrite inside `truncate_event_field` (main.rs:631-644):
keep a string at or under the cap, else keep its first `max_chars`
characters and append the annotation (`saturating_sub` elision count). -/
def truncate_chars (max_chars : Nat) (s : List Char) : List Char :=
  if s.length ≤ max_chars then s
  else s.take max_chars ++ elision_marker (s.length - max_chars)

/-- The three field names targeted by `sanitize_event_value` (main.rs:649). -/
def is_target_key (k : List Char) : Bool :=
  k == "aggregated_output".toList || k == "stdout".toList || k == "stderr".toList

/-- `truncate_event_field` applied to one binding of an object: only a
string value under one of the three target keys is rewritten. -/
def sanitize_field (k : List Char) (v : Json) : Json :=
  if is_target_key k then
    match v with
    | .str s => .str (truncate_chars MAX_EVENT_OUTPUT_CHARS s)
    | other => other
  else v

mutual
/-- `sanitize_event_value` (main.rs:646-663): truncate the target fields of
every object, recursing into all nested values. -/
def sanitize_event_value : Json → Json
  | .obj fields => .obj (sanitize_obj_fields fields)
  | .arr items => .arr (sanitize_arr_items items)
  | other => other

/-- Recursion of `sanitize_event_value` into array elements. -/
def sanitize_arr_items : List Json → List Json
  | [] => []
  | v :: rest => sanitize_event_value v :: sanitize_arr_items rest

/-- Recursion of `sanitize_event_value` into object bindings: the in-place
truncation of the target keys happens before the recursive descent (which
leaves a just-truncated string untouched, so the truncated binding is
emitted directly). -/
def sanitize_obj_fields : List (List Char × Json) → List (List Char × Json)
  | [] => []
  | (k, Json.str s) :: rest =>
      (k, if is_target_key k then Json.str (truncate_chars MAX_EVENT_OUTPUT_CHARS s)
          else Json.str s) :: sanitize_obj_fields rest
  | (k, v) :: rest =>
      (k, sanitize_event_value v) :: sanitize_obj_fields rest
end

/-- One escaped character of a JSON string, following `serde_json`'s
serializer: `"` and `\` escaped, the common control shorthands, and
`\u00XX` for the remaining control characters. -/
def escape_json_char (c : Char) : List Char :=
  if c = '"' then ['\\', '"']
  else if c = '\\' then ['\\', '\\']
  else if c = '\n' then ['\\', 'n']
  else if c = '\r' then ['\\', 'r']
  else if c = '\t' then ['\\', 't']
  else if c = Char.ofNat 8 then ['\\', 'b']
  else if c = Char.ofNat 12 then ['\\', 'f']
  else if c.toNat < 32 then
    '\\' :: 'u' :: '0' :: '0' :: (Nat.toDigits 16 c.toNat).map id
  else [c]

/-- Serialized JSON string literal. -/
def serialize_json_string (s : List Char) : List Char :=
  '"' :: s.flatMap escape_json_char ++ ['"']

mutual
/-- `serde_json::to_string` over the modelled values (compact form). -/
def serialize_json : Json → List Char
  | .null => "null".toList
  | .bool true => "true".toList
  | .bool false => "false".toList
  | .num n => (toString n).toList
  | .str s => serialize_json_string s
  | .arr items => '[' :: serialize_arr items ++ [']']
  | .obj fields => '{' :: serialize_obj fields ++ ['}']

/-- Comma-joined serialization of array elements. -/
def serialize_arr : List Json → List Char
  | [] => []
  | [v] => serialize_json v
  | v :: rest => serialize_json v ++ ',' :: serialize_arr rest

/-- Comma-joined serialization of object bindings. -/
def serialize_obj : List (List Char × Json) → List Char
  | [] => []
  | [(k, v)] => serialize_json_string k ++ ':' :: serialize_json v
  | (k, v) :: rest =>
      serialize_json_string k ++ ':' :: serialize_json v ++ ',' :: serialize_obj rest
end

/-- The line rendered by `append_event_line` (main.rs:665-674): if the raw
stdout line parsed as JSON, the serialization of its sanitized value is
appended, otherwise the raw line verbatim. The parse itself is external
input here (`serde_json::from_str`). -/
def event_line_rendered (parsed : Option Json) (raw_line : String) : String :=
  match parsed with
  | some v => String.mk (serialize_json (sanitize_event_value v))
  | none => raw_line

mutual
/-- Decides that a value contains no string above the cap under a target
key anywhere, i.e. that sanitization has nothing to rewrite. -/
def clean_json : Json → Bool
  | .obj fields => clean_obj_fields fields
  | .arr items => clean_arr_items items
  | _ => true

/-- `clean_json` over array elements. -/
def clean_arr_items : List Json → Bool
  | [] => true
  | v :: rest => clean_json v && clean_arr_items rest

/-- `clean_json` over object bindings. -/
def clean_obj_fields : List (List Char × Json) → Bool
  | [] => true
  | (k, v) :: rest =>
      (if is_target_key k then
        match v with
        | .str s => decide (s.length ≤ MAX_EVENT_OUTPUT_CHARS)
        | _ => true
      else true) && clean_json v && clean_obj_fields rest
end

/-- Substring test used to state the "reason contains ..." facts. -/
def containsSubstring (hay needle : String) : Bool :=
  hay.toList.tails.any fun suf => needle.toList.isPrefixOf suf

/-! Helper lemmas. -/

theorem list_set_of_getElem? {α : Type} :
    ∀ (l : List α) (i : Nat) (x : α), l[i]? = some x → l.set i x = l
  | [], _, _, h => by simp at h
  | _ :: _, 0, _, h => by
      simp only [List.getElem?_cons_zero, Option.some.injEq] at h
      simp [List.set, h]
  | a :: l, i + 1, x, h => by
      simp only [List.getElem?_cons_succ] at h
      simp [List.set, list_set_of_getElem? l i x h]

theorem list_getElem?_set_self {α : Type} :
    ∀ (l : List α) (i : Nat) (x : α), i < l.length → (l.set i x)[i]? = some x
  | [], i, _, h => by simp at h
  | _ :: _, 0, _, _ => by simp
  | a :: l, i + 1, x, h => by
      simpa [List.set] using list_getElem?_set_self l i x (by simpa using h)

theorem isLt_of_getElem? {α : Type} {l : List α} {i : Nat} {x : α}
    (h : l[i]? = some x) : i < l.length := by
  by_contra hc
  rw [List.getElem?_eq_none (by omega)] at h
  exact Option.noConfusion h

/-- A terminal task is left entirely unchanged by the reconciliation body. -/
theorem syncTask_eq_of_terminal (env : Env) (t : TaskRuntime)
    (h : t.status.is_terminal = true) : syncTask env t = t := by
  have hnr : t.status ≠ .running := by
    intro hr
    rw [hr] at h
    simp [TaskStatus.is_terminal] at h
  simp [syncTask, hnr, h]

/-- Reconciliation acts task-wise. -/
theorem sync_tasks_getElem? (env : Env) (s : RunState) (idx : Nat) :
    (sync_completion_and_progress env s).tasks[idx]? = s.tasks[idx]?.map (syncTask env) := by
  simp [sync_completion_and_progress, List.getElem?_map]

/-- Reconciliation does not change a task's status when its completion
artifact is absent, and preserves the escalate-retry counter always. -/
theorem syncTask_status_of_not_done (env : Env) (t : TaskRuntime)
    (h : task_done_by_artifact env t = false) :
    (syncTask env t).status = t.status
      ∧ (syncTask env t).unattended_escalate_retries = t.unattended_escalate_retries := by
  by_cases hr : t.status = .running <;>
    cases hp : env.latest_progress_epoch t.coord_dir <;>
      cases hc : t.completion_file <;>
        simp_all [syncTask, task_done_by_artifact]

/-- The selection gate of `choose_next_pending_task`, unfolded. -/
theorem choose_next_pending_task_spec (s : RunState) (idx : Nat)
    (h : choose_next_pending_task s = some idx) :
    ∃ t, s.tasks[idx]? = some t ∧ t.status = .pending ∧ deps_satisfied s idx = true := by
  have hp := List.find?_some h
  cases ht : s.tasks[idx]? with
  | none => rw [ht] at hp; simp at hp
  | some t =>
      rw [ht] at hp
      simp only [Bool.and_eq_true, beq_iff_eq] at hp
      exact ⟨t, rfl, hp.1, hp.2⟩

/-- `deps_satisfied`, unfolded: every dependency id names a terminal task. -/
theorem deps_satisfied_spec (s : RunState) (idx : Nat) (t : TaskRuntime)
    (ht : s.tasks[idx]? = some t) (h : deps_satisfied s idx = true) :
    ∀ dep ∈ t.depends_on, ∃ d, d ∈ s.tasks ∧ d.id = dep ∧ d.status.is_terminal = true := by
  intro dep hdep
  unfold deps_satisfied at h
  rw [ht] at h
  rw [List.all_eq_true] at h
  have := h dep hdep
  cases hf : s.tasks.find? (fun u => u.id == dep) with
  | none => rw [hf] at this; simp at this
  | some d =>
      rw [hf] at this
      refine ⟨d, List.mem_of_find?_eq_some hf, ?_, this⟩
      have := List.find?_some hf
      simpa using this

/-! Claim theorems. -/

/-- C2: one application of reconciliation (`sync_completion_and_progress`)
leaves every terminal task (Completed or BlockedBestEffort) unchanged; in
particular it never moves a terminal task back to Pending or Running. -/
theorem c2_reconcile_preserves_terminal (env : Env) (s : RunState) (idx : Nat)
    (t : TaskRuntime) (h1 : s.tasks[idx]? = some t)
    (h2 : t.status.is_terminal = true) :
    (sync_completion_and_progress env s).tasks[idx]? = some t := by
  rw [sync_tasks_getElem?, h1]
  simp [syncTask_eq_of_terminal env t h2]

/-- A sample environment: no completion artifacts, no coord progress. -/
def envIdle : Env :=
  { completion_file_exists := fun _ => false
    coord_done := fun _ => false
    latest_progress_epoch := fun _ => none
    now_epoch := 1000
    now_iso := "2026-01-02T03:04:05Z" }

/-- A sample environment in which every coord dir reads `done`. -/
def envDone : Env :=
  { completion_file_exists := fun _ => true
    coord_done := fun _ => true
    latest_progress_epoch := fun _ => none
    now_epoch := 2000
    now_iso := "2026-01-02T03:10:00Z" }

/-- A sample running task with no dependencies. -/
def taskRun : TaskRuntime :=
  { id := "t1", todo_file := "todo.md", depends_on := [], status := .running
    coord_dir := "coord/t1", completion_file := none, started_at := none
    completed_at := none, blocked_reason := none, last_progress_epoch := none
    recovery_attempts := 0, unattended_escalate_retries := 0 }

/-- A sample blocked (terminal) task. -/
def taskBlockedT : TaskRuntime :=
  { taskRun with id := "tb", status := .blockedBestEffort
                 blocked_reason := some "stuck" }

/-- A sample run state holding one terminal task. -/
def stateTerminal : RunState :=
  { run_id := "run-1", workspace := "ws", state_dir := "sd", unattended := true
    status := .running, started_at := "2026-01-01T00:00:00Z"
    updated_at := "2026-01-01T00:00:00Z", journal_path := "JOURNAL.md"
    thread_id := none, cycle := 0, last_turn_at := none
    tasks := [taskBlockedT] }

/-- Witness for C2 at a concrete terminal task, under an environment whose
completion artifacts all exist (reconciliation still must not touch it). -/
theorem c2_reconcile_preserves_terminal_witness :
    stateTerminal.tasks[0]? = some taskBlockedT
      ∧ taskBlockedT.status.is_terminal = true
      ∧ (sync_completion_and_progress envDone stateTerminal).tasks[0]? = some taskBlockedT :=
  ⟨by decide, by decide,
    c2_reconcile_preserves_terminal envDone stateTerminal 0 taskBlockedT
      (by decide) (by decide)⟩

/-- C6 counterexample: with `backoff_initial_secs = 1`,
`backoff_max_secs = 5000` and `failures = 12`, the code's shift cap of 10
gives `1 * 2^10 = 1024`, while the claim's formula
`min(max, initial * 2^(failures-1))` clamped to at least 1 gives 2048. -/
theorem c6_backoff_counterexample :
    compute_backoff_secs ⟨4, 6, 1, 5000⟩ 12 = 1024
      ∧ spec_backoff_secs ⟨4, 6, 1, 5000⟩ 12 = 2048
      ∧ compute_backoff_secs ⟨4, 6, 1, 5000⟩ 12 ≠ spec_backoff_secs ⟨4, 6, 1, 5000⟩ 12 := by
  refine ⟨by decide, by decide, by decide⟩

/-- C6 (amended): `compute_backoff_secs` equals
`min(backoff_max_secs, initial * 2^min(failures-1, 10))` clamped to at
least 1, with a u64-saturating multiply; and for `failures = 1`, when
`initial` fits in u64, it equals `min(backoff_max_secs, initial)` clamped
to at least 1 (the upper clamp by `backoff_max_secs` also applies). -/
theorem c6_backoff_amended (recovery : RecoveryConfig) (failures : Nat)
    (hinit : recovery.backoff_initial_secs ≤ u64Max) :
    compute_backoff_secs recovery failures
        = max (min recovery.backoff_max_secs
            (satMul64 recovery.backoff_initial_secs (2 ^ min (failures - 1) 10))) 1
      ∧ compute_backoff_secs recovery 1
        = max (min recovery.backoff_max_secs recovery.backoff_initial_secs) 1 := by
  constructor
  · simp only [compute_backoff_secs]
    omega
  · simp only [compute_backoff_secs, satMul64]
    have h0 : min (1 - 1) 10 = 0 := by decide
    rw [h0, pow_zero, Nat.mul_one]
    omega

/-- Witness for C6 (amended) at the default recovery parameters and
`failures = 3`: `5 * 2^2 = 20` within the `[1, 120]` clamp. -/
theorem c6_backoff_amended_witness :
    RecoveryConfig.defaults.backoff_initial_secs ≤ u64Max
      ∧ compute_backoff_secs RecoveryConfig.defaults 3
          = max (min RecoveryConfig.defaults.backoff_max_secs
              (satMul64 RecoveryConfig.defaults.backoff_initial_secs (2 ^ min (3 - 1) 10))) 1
      ∧ compute_backoff_secs RecoveryConfig.defaults 1
          = max (min RecoveryConfig.defaults.backoff_max_secs
              RecoveryConfig.defaults.backoff_initial_secs) 1 := by
  refine ⟨by decide, ?_, ?_⟩
  · exact (c6_backoff_amended RecoveryConfig.defaults 3 (by decide)).1
  · exact (c6_backoff_amended RecoveryConfig.defaults 1 (by decide)).2

/-- C7 counterexample: with `backoff_initial_secs = 1` and
`backoff_max_secs = 5000`, ten failures give `1 * 2^9 = 512`, not the
configured maximum 5000. -/
theorem c7_backoff_cap_counterexample :
    compute_backoff_secs ⟨4, 6, 1, 5000⟩ 10 = 512
      ∧ (⟨4, 6, 1, 5000⟩ : RecoveryConfig).backoff_max_secs = 5000
      ∧ compute_backoff_secs ⟨4, 6, 1, 5000⟩ 10
          ≠ (⟨4, 6, 1, 5000⟩ : RecoveryConfig).backoff_max_secs := by
  refine ⟨by decide, by decide, by decide⟩

/-- C7 (amended): for `failures ≥ 10` the backoff equals
`backoff_max_secs` provided the maximum is at least 1 and is reachable,
i.e. `backoff_max_secs ≤ initial * 2^9` (u64-saturating); this holds in
particular for the default parameters (5, 120). -/
theorem c7_backoff_cap_amended (recovery : RecoveryConfig) (failures : Nat)
    (h1 : 1 ≤ recovery.backoff_max_secs)
    (h2 : recovery.backoff_max_secs ≤ satMul64 recovery.backoff_initial_secs 512)
    (h3 : 10 ≤ failures) :
    compute_backoff_secs recovery failures = recovery.backoff_max_secs := by
  simp only [compute_backoff_secs]
  have hshift : 9 ≤ min (failures - 1) 10 := by omega
  have hpow : (2 : Nat) ^ 9 ≤ 2 ^ min (failures - 1) 10 :=
    Nat.pow_le_pow_right (by omega) hshift
  have hmul : recovery.backoff_initial_secs * 512
      ≤ recovery.backoff_initial_secs * 2 ^ min (failures - 1) 10 :=
    Nat.mul_le_mul_left _ hpow
  simp only [satMul64] at h2 ⊢
  omega

/-- Witness for C7 (amended) at the default recovery parameters with ten
failures. -/
theorem c7_backoff_cap_amended_witness :
    1 ≤ RecoveryConfig.defaults.backoff_max_secs
      ∧ RecoveryConfig.defaults.backoff_max_secs
          ≤ satMul64 RecoveryConfig.defaults.backoff_initial_secs 512
      ∧ 10 ≤ 10
      ∧ compute_backoff_secs RecoveryConfig.defaults 10
          = RecoveryConfig.defaults.backoff_max_secs :=
  ⟨by decide, by decide, by decide,
    c7_backoff_cap_amended RecoveryConfig.defaults 10 (by decide) (by decide) (by decide)⟩

/-- Two config tasks whose `depends_on` lists form a cycle. -/
def cyclicTasks : List TaskConfig :=
  [{ id := "a", todo_file := "a.md", depends_on := ["b"], coord_dir := none
     completion_file := none },
   { id := "b", todo_file := "b.md", depends_on := ["a"], coord_dir := none
     completion_file := none }]

/-- The runtime state `init_state` would build from `cyclicTasks`: both
tasks Pending, each depending on the other. -/
def cyclicState : RunState :=
  { run_id := "run-cyc", workspace := "ws", state_dir := "sd", unattended := true
    status := .running, started_at := "2026-01-01T00:00:00Z"
    updated_at := "2026-01-01T00:00:00Z", journal_path := "JOURNAL.md"
    thread_id := none, cycle := 0, last_turn_at := none
    tasks :=
      [{ id := "a", todo_file := "a.md", depends_on := ["b"], status := .pending
         coord_dir := "coord/a", completion_file := none, started_at := none
         completed_at := none, blocked_reason := none, last_progress_epoch := none
         recovery_attempts := 0, unattended_escalate_retries := 0 },
       { id := "b", todo_file := "b.md", depends_on := ["a"], status := .pending
         coord_dir := "coord/b", completion_file := none, started_at := none
         completed_at := none, blocked_reason := none, last_progress_epoch := none
         recovery_attempts := 0, unattended_escalate_retries := 0 }]}

/-- C5 counterexample: a configuration whose two tasks form a dependency
cycle passes `load_config`'s validation — loading does not fail, refuting
load-time cycle rejection. -/
theorem c5_cycle_counterexample :
    load_config_validate cyclicTasks = Except.ok () := by rfl

/-- `check_task_ids` reads only the task ids. -/
theorem check_task_ids_ignores_deps (f : TaskConfig → List String) :
    ∀ (seen : List String) (tasks : List TaskConfig),
      check_task_ids seen (tasks.map fun t => { t with depends_on := f t })
        = check_task_ids seen tasks
  | _, [] => rfl
  | seen, t :: rest => by
      simp only [List.map_cons, check_task_ids]
      by_cases h1 : trimString t.id = ""
      · simp [h1]
      · by_cases h2 : t.id ∈ seen
        · simp [h1, h2]
        · simp [h1, h2, check_task_ids_ignores_deps f (t.id :: seen) rest]

/-- C5 (amended): `load_config` performs no cycle detection — its
validation is entirely independent of the `depends_on` lists (rewriting
them arbitrarily never changes the result), so a cyclic config loads
successfully; the cycle surfaces only at runtime, where no task of the
cycle is ever runnable (`choose_next_pending_task` finds nothing while not
every task is terminal), which `run_governor` reports as a
`FailedTerminal` deadlock. -/
theorem c5_cycle_amended :
    (∀ (tasks : List TaskConfig) (f : TaskConfig → List String),
      load_config_validate (tasks.map fun t => { t with depends_on := f t })
        = load_config_validate tasks)
      ∧ choose_next_pending_task cyclicState = none
      ∧ all_terminal cyclicState = false
      ∧ (∀ env : Env, governor_select env cyclicState
            = .deadlock { cyclicState with status := .failedTerminal }) := by
  refine ⟨?_, by decide, by decide, ?_⟩
  · intro tasks f
    unfold load_config_validate
    cases tasks with
    | nil => rfl
    | cons t rest => simpa using check_task_ids_ignores_deps f [] (t :: rest)
  · intro env
    have h1 : cyclicState.tasks.findIdx? (fun t => t.status == .running) = none := by
      decide
    have h2 : choose_next_pending_task cyclicState = none := by decide
    simp [governor_select, h1, h2]

/-- Characterization of a successful `governor_select`: either a task was
already Running (state untouched), or the first eligible pending task was
promoted. -/
theorem governor_select_active_cases (env : Env) (s : RunState) (idx : Nat)
    (s' : RunState) (h : governor_select env s = .active idx s') :
    (s.tasks.findIdx? (fun u => u.status == .running) = some idx ∧ s' = s)
      ∨ (s.tasks.findIdx? (fun u => u.status == .running) = none
          ∧ choose_next_pending_task s = some idx
          ∧ ∃ t0, s.tasks[idx]? = some t0
              ∧ s' = setTask s idx (mark_task_started env t0)) := by
  unfold governor_select at h
  split at h
  · rename_i j hfind
    simp only [SelectResult.active.injEq] at h
    exact Or.inl ⟨by rw [hfind, h.1], h.2.symm⟩
  · rename_i hfind
    split at h
    · rename_i next hch
      split at h
      · rename_i t0 ht0
        simp only [SelectResult.active.injEq] at h
        obtain ⟨h1, h2⟩ := h
        subst h1
        exact Or.inr ⟨hfind, hch, t0, ht0, h2.symm⟩
      · exact absurd h (by simp)
    · exact absurd h (by simp)

/-- C1: the select step of `run_governor` promotes a task from Pending to
Running only via `choose_next_pending_task`, i.e. only when every id in its
`depends_on` list names a task of the run whose status is terminal. -/
theorem c1_pending_runs_only_with_terminal_deps (env : Env) (s : RunState)
    (idx : Nat) (s' : RunState) (t t' : TaskRuntime)
    (hsel : governor_select env s = .active idx s')
    (ht : s.tasks[idx]? = some t) (ht' : s'.tasks[idx]? = some t')
    (hp : t.status = .pending) (hr : t'.status = .running) :
    ∀ dep ∈ t.depends_on, ∃ d, d ∈ s.tasks ∧ d.id = dep ∧ d.status.is_terminal = true := by
  rcases governor_select_active_cases env s idx s' hsel with ⟨_, hs⟩ | ⟨_, hch, t0, ht0, _⟩
  · subst hs
    rw [ht] at ht'
    injection ht' with he
    subst he
    exact absurd (hp.symm.trans hr) (by decide)
  · obtain ⟨t1, ht1, _, hdeps⟩ := choose_next_pending_task_spec s idx hch
    exact deps_satisfied_spec s idx t ht hdeps

/-- A completed task `a` for the C1 witness. -/
def taskA : TaskRuntime :=
  { id := "a", todo_file := "a.md", depends_on := [], status := .completed
    coord_dir := "coord/a", completion_file := none, started_at := none
    completed_at := some "2026-01-01T01:00:00Z", blocked_reason := none
    last_progress_epoch := some 900, recovery_attempts := 0
    unattended_escalate_retries := 0 }

/-- A pending task `b` depending on `a` for the C1 witness. -/
def taskB : TaskRuntime :=
  { id := "b", todo_file := "b.md", depends_on := ["a"], status := .pending
    coord_dir := "coord/b", completion_file := none, started_at := none
    completed_at := none, blocked_reason := none, last_progress_epoch := none
    recovery_attempts := 0, unattended_escalate_retries := 0 }

/-- Run state for the C1 witness: task `a` already terminal, task `b`
pending with `depends_on = ["a"]`. -/
def stateAB : RunState :=
  { run_id := "run-ab", workspace := "ws", state_dir := "sd", unattended := true
    status := .running, started_at := "2026-01-01T00:00:00Z"
    updated_at := "2026-01-01T00:00:00Z", journal_path := "JOURNAL.md"
    thread_id := none, cycle := 3, last_turn_at := none
    tasks := [taskA, taskB] }

/-- Witness for C1: with `a` completed, the select step promotes `b` from
Pending to Running, and indeed every dependency of `b` is terminal. -/
theorem c1_pending_runs_only_with_terminal_deps_witness :
    governor_select envIdle stateAB
        = .active 1 (setTask stateAB 1 (mark_task_started envIdle taskB))
      ∧ stateAB.tasks[1]? = some taskB
      ∧ (setTask stateAB 1 (mark_task_started envIdle taskB)).tasks[1]?
          = some (mark_task_started envIdle taskB)
      ∧ taskB.status = .pending
      ∧ (mark_task_started envIdle taskB).status = .running
      ∧ (∀ dep ∈ taskB.depends_on,
          ∃ d, d ∈ stateAB.tasks ∧ d.id = dep ∧ d.status.is_terminal = true) :=
  ⟨by decide, by decide, by decide, by decide, by decide,
    c1_pending_runs_only_with_terminal_deps envIdle stateAB 1
      (setTask stateAB 1 (mark_task_started envIdle taskB))
      taskB (mark_task_started envIdle taskB)
      (by decide) (by decide) (by decide) (by decide) (by decide)⟩

/-- Writing back the unchanged task is a no-op. -/
theorem setTask_self (s : RunState) (idx : Nat) (t : TaskRuntime)
    (h : s.tasks[idx]? = some t) : setTask s idx t = s := by
  unfold setTask
  rw [list_set_of_getElem? s.tasks idx t h]

/-- C3 counterexample: under policy strict in an unattended run, a control
status of `"blocked: awaiting input"` (which contains, but does not equal,
the token `blocked`) is IGNORED by `decide_unattended_escalate`, not
blocked: the status test is an exact trimmed case-insensitive match, not a
containment test. -/
theorem c3_strict_escalate_counterexample :
    decide_unattended_escalate true .strict taskRun
        (some "blocked: awaiting input") none = (.ignore, taskRun)
      ∧ EscalateHandling.ignore ≠ EscalateHandling.block :=
  ⟨by decide, by decide⟩

/-- C3 (amended): under policy strict in an unattended run, when the
control block's `next_action` equals `ESCALATE` (case-insensitive) or its
`status` trims to exactly `blocked` or `blocked_best_effort`
(case-insensitive), the decision is Block and — unless reconciliation has
just marked the active task Completed — the task is marked
BlockedBestEffort in the same iteration with a `blocked_reason` containing
`policy=strict`; when the run is not unattended or neither condition
holds, the decision is Ignore and the task is untouched by the escalate
path. -/
theorem c3_strict_escalate_amended :
    (∀ (env : Env) (s : RunState) (idx : Nat) (t tc : TaskRuntime)
        (cs na : Option String),
      s.tasks[idx]? = some t →
      (is_action_escalate na || is_status_escalate cs) = true →
      (sync_completion_and_progress env s).tasks[idx]? = some tc →
      tc.status ≠ .completed →
      decide_unattended_escalate true .strict t cs na = (.block, t)
        ∧ ∃ t1, (process_control_escalate env true .strict s idx cs na).tasks[idx]?
              = some t1
            ∧ t1.status = .blockedBestEffort
            ∧ t1.blocked_reason = some (escalate_block_reason .strict)
            ∧ containsSubstring (escalate_block_reason .strict) "policy=strict" = true)
      ∧ (∀ (env : Env) (s : RunState) (idx : Nat) (t : TaskRuntime)
          (cs na : Option String) (u : Bool) (pol : UnattendedEscalatePolicy),
        s.tasks[idx]? = some t →
        (u = false ∨ (is_action_escalate na || is_status_escalate cs) = false) →
        decide_unattended_escalate u pol t cs na = (.ignore, t)
          ∧ process_control_escalate env u pol s idx cs na
              = sync_completion_and_progress env s) := by
  constructor
  · intro env s idx t tc cs na ht hcond htc hnc
    have hdec : decide_unattended_escalate true .strict t cs na = (.block, t) := by
      simp [decide_unattended_escalate, hcond]
    refine ⟨hdec, ?_⟩
    have hlt : idx < (sync_completion_and_progress env s).tasks.length :=
      isLt_of_getElem? htc
    refine ⟨mark_task_blocked env tc (escalate_block_reason .strict), ?_, rfl, rfl, by decide⟩
    unfold process_control_escalate
    rw [ht]
    simp only [hdec]
    rw [setTask_self s idx t ht]
    simp only [apply_escalate_block, htc]
    rw [if_neg hnc]
    exact list_getElem?_set_self _ idx _ hlt
  · intro env s idx t cs na u pol ht hcond
    have hdec : decide_unattended_escalate u pol t cs na = (.ignore, t) := by
      rcases hcond with hu | hc
      · simp [decide_unattended_escalate, hu]
      · cases u <;> simp [decide_unattended_escalate, hc]
    refine ⟨hdec, ?_⟩
    unfold process_control_escalate
    rw [ht]
    simp only [hdec]
    rw [setTask_self s idx t ht]
    rfl

/-- Run state for the escalate witnesses: a single running task. -/
def stateRun : RunState :=
  { run_id := "run-esc", workspace := "ws", state_dir := "sd", unattended := true
    status := .running, started_at := "2026-01-01T00:00:00Z"
    updated_at := "2026-01-01T00:00:00Z", journal_path := "JOURNAL.md"
    thread_id := none, cycle := 1, last_turn_at := none
    tasks := [taskRun] }

/-- Witness for C3 (amended): a concrete `next_action = "ESCALATE"` under
strict policy blocks the running task; a non-escalate status is ignored. -/
theorem c3_strict_escalate_amended_witness :
    (stateRun.tasks[0]? = some taskRun
      ∧ (is_action_escalate (some "ESCALATE") || is_status_escalate none) = true
      ∧ (sync_completion_and_progress envIdle stateRun).tasks[0]? = some taskRun
      ∧ taskRun.status ≠ .completed
      ∧ decide_unattended_escalate true .strict taskRun none (some "ESCALATE")
          = (.block, taskRun)
      ∧ (∃ t1, (process_control_escalate envIdle true .strict stateRun 0 none
              (some "ESCALATE")).tasks[0]? = some t1
          ∧ t1.status = .blockedBestEffort
          ∧ t1.blocked_reason = some (escalate_block_reason .strict)
          ∧ containsSubstring (escalate_block_reason .strict) "policy=strict" = true))
      ∧ (decide_unattended_escalate true .bestEffortOnce taskRun
            (some "in_progress") (some "continue") = (.ignore, taskRun)
        ∧ process_control_escalate envIdle true .bestEffortOnce stateRun 0
            (some "in_progress") (some "continue")
            = sync_completion_and_progress envIdle stateRun) := by
  have h1 := (c3_strict_escalate_amended.1 envIdle stateRun 0 taskRun taskRun
    none (some "ESCALATE") (by decide) (by decide) (by decide) (by decide))
  have h2 := (c3_strict_escalate_amended.2 envIdle stateRun 0 taskRun
    (some "in_progress") (some "continue") true .bestEffortOnce (by decide)
    (Or.inr (by decide)))
  exact ⟨⟨by decide, by decide, by decide, by decide, h1.1, h1.2⟩, h2⟩

/-- C4: under policy best_effort_once in an unattended run, the first
escalate signal on a task with `unattended_escalate_retries = 0` bumps the
counter to 1 and yields Retry — the running task stays Running through the
iteration (its completion artifact still absent) — while any subsequent
escalate signal yields Block and the task is marked BlockedBestEffort with
a reason naming the policy. -/
theorem c4_best_effort_once_escalate :
    (∀ (env : Env) (s : RunState) (idx : Nat) (t : TaskRuntime)
        (cs na : Option String),
      s.tasks[idx]? = some t →
      (is_action_escalate na || is_status_escalate cs) = true →
      t.unattended_escalate_retries = 0 →
      t.status = .running →
      task_done_by_artifact env t = false →
      decide_unattended_escalate true .bestEffortOnce t cs na
          = (.retry, { t with unattended_escalate_retries := 1 })
        ∧ ∃ t1, (process_control_escalate env true .bestEffortOnce s idx cs na).tasks[idx]?
              = some t1
            ∧ t1.status = .running
            ∧ t1.unattended_escalate_retries = 1)
      ∧ (∀ (env : Env) (s : RunState) (idx : Nat) (t tc : TaskRuntime)
          (cs na : Option String),
        s.tasks[idx]? = some t →
        (is_action_escalate na || is_status_escalate cs) = true →
        t.unattended_escalate_retries ≠ 0 →
        (sync_completion_and_progress env s).tasks[idx]? = some tc →
        tc.status ≠ .completed →
        decide_unattended_escalate true .bestEffortOnce t cs na = (.block, t)
          ∧ ∃ t1, (process_control_escalate env true .bestEffortOnce s idx cs na).tasks[idx]?
                = some t1
              ∧ t1.status = .blockedBestEffort
              ∧ t1.blocked_reason = some (escalate_block_reason .bestEffortOnce)
              ∧ containsSubstring (escalate_block_reason .bestEffortOnce)
                  "best_effort_once" = true) := by
  constructor
  · intro env s idx t cs na ht hcond hret hrun hdone
    have hdec : decide_unattended_escalate true .bestEffortOnce t cs na
        = (.retry, { t with unattended_escalate_retries := 1 }) := by
      simp [decide_unattended_escalate, hcond, hret]
    refine ⟨hdec, syncTask env { t with unattended_escalate_retries := 1 }, ?_, ?_, ?_⟩
    · unfold process_control_escalate
      rw [ht]
      simp only [hdec, apply_escalate_block]
      have hset : (setTask s idx { t with unattended_escalate_retries := 1 }).tasks[idx]?
          = some { t with unattended_escalate_retries := 1 } := by
        simp only [setTask]
        exact list_getElem?_set_self _ idx _ (by simpa using isLt_of_getElem? ht)
      rw [sync_tasks_getElem?, hset]
      rfl
    · have hdone' : task_done_by_artifact env
          { t with unattended_escalate_retries := 1 } = false := hdone
      rw [(syncTask_status_of_not_done env _ hdone').1]
      exact hrun
    · have hdone' : task_done_by_artifact env
          { t with unattended_escalate_retries := 1 } = false := hdone
      exact (syncTask_status_of_not_done env _ hdone').2
  · intro env s idx t tc cs na ht hcond hret htc hnc
    have hdec : decide_unattended_escalate true .bestEffortOnce t cs na = (.block, t) := by
      simp [decide_unattended_escalate, hcond, hret]
    refine ⟨hdec, mark_task_blocked env tc (escalate_block_reason .bestEffortOnce),
      ?_, rfl, rfl, by decide⟩
    unfold process_control_escalate
    rw [ht]
    simp only [hdec]
    rw [setTask_self s idx t ht]
    simp only [apply_escalate_block, htc]
    rw [if_neg hnc]
    exact list_getElem?_set_self _ idx _ (isLt_of_getElem? htc)

/-- The running task of `stateRun` after its one best-effort retry. -/
def taskRunRetried : TaskRuntime := { taskRun with unattended_escalate_retries := 1 }

/-- Run state holding `taskRunRetried`. -/
def stateRunRetried : RunState := { stateRun with tasks := [taskRunRetried] }

/-- Witness for C4 at a concrete two-signal scenario: the first signal on
the fresh running task retries and bumps the counter; the same signal on
the already-retried task blocks it with the policy named in the reason. -/
theorem c4_best_effort_once_escalate_witness :
    (stateRun.tasks[0]? = some taskRun
      ∧ (is_action_escalate (some "ESCALATE") || is_status_escalate (some "blocked")) = true
      ∧ taskRun.unattended_escalate_retries = 0
      ∧ taskRun.status = .running
      ∧ task_done_by_artifact envIdle taskRun = false
      ∧ decide_unattended_escalate true .bestEffortOnce taskRun (some "blocked")
          (some "ESCALATE") = (.retry, { taskRun with unattended_escalate_retries := 1 })
      ∧ (∃ t1, (process_control_escalate envIdle true .bestEffortOnce stateRun 0
              (some "blocked") (some "ESCALATE")).tasks[0]? = some t1
          ∧ t1.status = .running ∧ t1.unattended_escalate_retries = 1))
      ∧ (stateRunRetried.tasks[0]? = some taskRunRetried
        ∧ taskRunRetried.unattended_escalate_retries ≠ 0
        ∧ (sync_completion_and_progress envIdle stateRunRetried).tasks[0]?
            = some taskRunRetried
        ∧ taskRunRetried.status ≠ .completed
        ∧ decide_unattended_escalate true .bestEffortOnce taskRunRetried (some "blocked")
            (some "ESCALATE") = (.block, taskRunRetried)
        ∧ (∃ t1, (process_control_escalate envIdle true .bestEffortOnce stateRunRetried 0
                (some "blocked") (some "ESCALATE")).tasks[0]? = some t1
            ∧ t1.status = .blockedBestEffort
            ∧ t1.blocked_reason = some (escalate_block_reason .bestEffortOnce)
            ∧ containsSubstring (escalate_block_reason .bestEffortOnce)
                "best_effort_once" = true)) := by
  have h1 := c4_best_effort_once_escalate.1 envIdle stateRun 0 taskRun
    (some "blocked") (some "ESCALATE") (by decide) (by decide) (by decide)
    (by decide) (by decide)
  have h2 := c4_best_effort_once_escalate.2 envIdle stateRunRetried 0 taskRunRetried
    taskRunRetried (some "blocked") (some "ESCALATE") (by decide) (by decide)
    (by decide) (by decide) (by decide)
  exact ⟨⟨by decide, by decide, by decide, by decide, by decide, h1.1, h1.2⟩,
    ⟨by decide, by decide, by decide, by decide, h2.1, h2.2⟩⟩

/-- A non-terminal task that reconciliation reports Completed was completed
by the artifact branch, which clears `blocked_reason`. -/
theorem syncTask_completed_clears_reason (env : Env) (t0 : TaskRuntime)
    (hnt : t0.status.is_terminal = false)
    (hc : (syncTask env t0).status = .completed) :
    (syncTask env t0).blocked_reason = none := by
  by_cases hr : t0.status = .running <;>
    cases hp : env.latest_progress_epoch t0.coord_dir <;>
      cases hcf : t0.completion_file <;>
        simp_all [syncTask, task_done_by_artifact, TaskStatus.is_terminal] <;>
          split at hc <;> simp_all [TaskStatus.is_terminal]

/-- C10: when reconciliation after a turn marks the active task Completed,
a pending escalate Block decision from the same turn is discarded: the
post-turn step returns the reconciled state unchanged (status stays
Completed), and for a task completed in this very reconciliation no
`blocked_reason` is set. -/
theorem c10_completion_overrides_escalate (env : Env) (s : RunState) (idx : Nat)
    (r : String) (tc : TaskRuntime)
    (htc : (sync_completion_and_progress env s).tasks[idx]? = some tc)
    (hc : tc.status = .completed) :
    apply_escalate_block env s idx (some r) = sync_completion_and_progress env s
      ∧ (∀ t0, s.tasks[idx]? = some t0 → t0.status.is_terminal = false →
          tc.blocked_reason = none) := by
  constructor
  · simp only [apply_escalate_block, htc]
    rw [if_pos hc]
  · intro t0 ht0 hnt
    have hsync : syncTask env t0 = tc := by
      rw [sync_tasks_getElem?, ht0] at htc
      simpa using htc
    rw [← hsync] at hc ⊢
    exact syncTask_completed_clears_reason env t0 hnt hc

/-- Witness for C10: with the coord dir reading `done`, reconciliation
completes the running task and a strict-policy block request from the same
turn is discarded. -/
theorem c10_completion_overrides_escalate_witness :
    (sync_completion_and_progress envDone stateRun).tasks[0]?
        = some (syncTask envDone taskRun)
      ∧ (syncTask envDone taskRun).status = .completed
      ∧ apply_escalate_block envDone stateRun 0 (some (escalate_block_reason .strict))
          = sync_completion_and_progress envDone stateRun
      ∧ stateRun.tasks[0]? = some taskRun
      ∧ taskRun.status.is_terminal = false
      ∧ (syncTask envDone taskRun).blocked_reason = none := by
  have h := c10_completion_overrides_escalate envDone stateRun 0
    (escalate_block_reason .strict) (syncTask envDone taskRun) (by decide) (by decide)
  exact ⟨by decide, by decide, h.1, by decide, by decide,
    h.2 taskRun (by decide) (by decide)⟩

/-- Whether a stall-probe outcome carries a recovery note. -/
def StallOutcome.is_note : StallOutcome → Bool
  | .note _ => true
  | _ => false

/-- C8 counterexample: with `stall_secs = 0`, on the governor's first
iteration for a freshly started task (no progress recorded, coord dir
silent) the probe seeds `last_progress_epoch := now`, computes age 0, and
`0 > 0` fails — NO recovery note is attached. -/
theorem c8_stall_zero_counterexample :
    stall_probe envIdle 0 4 taskRun
        = (.proceed, { taskRun with last_progress_epoch := some 1000 })
      ∧ (stall_probe envIdle 0 4 taskRun).1.is_note = false :=
  ⟨by decide, by decide⟩

/-- C8 (amended): on the first iteration for a fresh task the probe only
seeds `last_progress_epoch` with `now` and proceeds without a note (age is
0 and the comparison is strict), for any `stall_secs` below `2^63`; a
recovery note is attached on any later iteration whose age strictly
exceeds `stall_secs` (with `stall_secs = 0`, the first iteration at least
one second after the recorded progress), provided the attempt ceiling is
not yet reached, and it bumps `recovery_attempts`. -/
theorem c8_stall_probe_amended :
    (∀ (env : Env) (stall_secs max_recovery : Nat) (task : TaskRuntime),
      task.last_progress_epoch = none →
      stall_secs < 2 ^ 63 →
      stall_probe env stall_secs max_recovery task
        = (.proceed, { task with last_progress_epoch := some env.now_epoch }))
      ∧ (∀ (env : Env) (stall_secs max_recovery : Nat) (task : TaskRuntime) (last : Int),
        task.last_progress_epoch = some last →
        task.recovery_attempts < max_recovery →
        satSubI64 env.now_epoch last > u64AsI64 stall_secs →
        (stall_probe env stall_secs max_recovery task).1.is_note = true
          ∧ (stall_probe env stall_secs max_recovery task).2.recovery_attempts
              = satAddOne32 task.recovery_attempts) := by
  constructor
  · intro env stall_secs max_recovery task h0 hsmall
    have hcast : u64AsI64 stall_secs = (stall_secs : Int) := by
      simp only [u64AsI64]
      rw [Nat.mod_eq_of_lt (by omega : stall_secs < 2 ^ 64)]
      rw [if_pos hsmall]
    have hpos : ¬ (satSubI64 env.now_epoch env.now_epoch > u64AsI64 stall_secs) := by
      rw [hcast]
      unfold satSubI64
      omega
    simp [stall_probe, h0, hpos]
  · intro env stall_secs max_recovery task last hsome hrec hage
    have hge : ¬ (task.recovery_attempts ≥ max_recovery) := by omega
    simp [stall_probe, hsome, hage, hge, StallOutcome.is_note]

/-- The running task with progress last recorded one second ago. -/
def taskStalled : TaskRuntime := { taskRun with last_progress_epoch := some 999 }

/-- Witness for C8 (amended): the fresh task proceeds without a note under
`stall_secs = 0`; one second later the same configuration produces a note
and bumps the attempt counter. -/
theorem c8_stall_probe_amended_witness :
    (taskRun.last_progress_epoch = none
      ∧ (0 : Nat) < 2 ^ 63
      ∧ stall_probe envIdle 0 4 taskRun
          = (.proceed, { taskRun with last_progress_epoch := some envIdle.now_epoch }))
      ∧ (taskStalled.last_progress_epoch = some 999
        ∧ taskStalled.recovery_attempts < 4
        ∧ satSubI64 envIdle.now_epoch 999 > u64AsI64 0
        ∧ (stall_probe envIdle 0 4 taskStalled).1.is_note = true
        ∧ (stall_probe envIdle 0 4 taskStalled).2.recovery_attempts
            = satAddOne32 taskStalled.recovery_attempts) := by
  have h1 := c8_stall_probe_amended.1 envIdle 0 4 taskRun (by decide) (by decide)
  have h2 := c8_stall_probe_amended.2 envIdle 0 4 taskStalled 999 (by decide)
    (by decide) (by decide)
  exact ⟨⟨by decide, by decide, h1⟩, ⟨by decide, by decide, by decide, h2.1, h2.2⟩⟩

mutual
/-- A value with no over-cap string under a target key is left unchanged
by sanitization. -/
theorem sanitize_event_value_of_clean (v : Json) (h : clean_json v = true) :
    sanitize_event_value v = v := by
  cases v with
  | null => rfl
  | bool b => rfl
  | num n => rfl
  | str s => rfl
  | arr items =>
      have h2 : clean_arr_items items = true := h
      show Json.arr (sanitize_arr_items items) = Json.arr items
      rw [sanitize_arr_items_of_clean items h2]
  | obj fields =>
      have h2 : clean_obj_fields fields = true := h
      show Json.obj (sanitize_obj_fields fields) = Json.obj fields
      rw [sanitize_obj_fields_of_clean fields h2]

/-- `sanitize_event_value_of_clean` for array elements. -/
theorem sanitize_arr_items_of_clean (items : List Json)
    (h : clean_arr_items items = true) : sanitize_arr_items items = items := by
  cases items with
  | nil => rfl
  | cons v rest =>
      have h' : (clean_json v && clean_arr_items rest) = true := h
      rw [Bool.and_eq_true] at h'
      show sanitize_event_value v :: sanitize_arr_items rest = v :: rest
      rw [sanitize_event_value_of_clean v h'.1, sanitize_arr_items_of_clean rest h'.2]

/-- `sanitize_event_value_of_clean` for object bindings. -/
theorem sanitize_obj_fields_of_clean (fields : List (List Char × Json))
    (h : clean_obj_fields fields = true) : sanitize_obj_fields fields = fields := by
  cases fields with
  | nil => rfl
  | cons p rest =>
      obtain ⟨k, v⟩ := p
      cases v with
      | str s =>
          have h' : ((if is_target_key k then
                decide (s.length ≤ MAX_EVENT_OUTPUT_CHARS) else true)
              && clean_json (Json.str s) && clean_obj_fields rest) = true := h
          rw [Bool.and_eq_true, Bool.and_eq_true] at h'
          obtain ⟨⟨hk, _⟩, hrest⟩ := h'
          show (k, if is_target_key k then Json.str (truncate_chars MAX_EVENT_OUTPUT_CHARS s)
                   else Json.str s) :: sanitize_obj_fields rest
              = (k, Json.str s) :: rest
          rw [sanitize_obj_fields_of_clean rest hrest]
          by_cases ht : is_target_key k = true
          · rw [if_pos ht]
            rw [if_pos ht] at hk
            have hlen : s.length ≤ MAX_EVENT_OUTPUT_CHARS := of_decide_eq_true hk
            rw [truncate_chars, if_pos hlen]
          · rw [if_neg ht]
      | null =>
          have h' : ((if is_target_key k then (true : Bool) else true)
              && clean_json Json.null && clean_obj_fields rest) = true := h
          rw [Bool.and_eq_true, Bool.and_eq_true] at h'
          show (k, sanitize_event_value Json.null) :: sanitize_obj_fields rest
              = (k, Json.null) :: rest
          rw [sanitize_obj_fields_of_clean rest h'.2]
          rfl
      | bool b =>
          have h' : ((if is_target_key k then (true : Bool) else true)
              && clean_json (Json.bool b) && clean_obj_fields rest) = true := h
          rw [Bool.and_eq_true, Bool.and_eq_true] at h'
          show (k, sanitize_event_value (Json.bool b)) :: sanitize_obj_fields rest
              = (k, Json.bool b) :: rest
          rw [sanitize_obj_fields_of_clean rest h'.2]
          rfl
      | num n =>
          have h' : ((if is_target_key k then (true : Bool) else true)
              && clean_json (Json.num n) && clean_obj_fields rest) = true := h
          rw [Bool.and_eq_true, Bool.and_eq_true] at h'
          show (k, sanitize_event_value (Json.num n)) :: sanitize_obj_fields rest
              = (k, Json.num n) :: rest
          rw [sanitize_obj_fields_of_clean rest h'.2]
          rfl
      | arr items =>
          have h' : ((if is_target_key k then (true : Bool) else true)
              && clean_json (Json.arr items) && clean_obj_fields rest) = true := h
          rw [Bool.and_eq_true, Bool.and_eq_true] at h'
          show (k, sanitize_event_value (Json.arr items)) :: sanitize_obj_fields rest
              = (k, Json.arr items) :: rest
          rw [sanitize_obj_fields_of_clean rest h'.2,
            sanitize_event_value_of_clean (Json.arr items) h'.1.2]
      | obj fs =>
          have h' : ((if is_target_key k then (true : Bool) else true)
              && clean_json (Json.obj fs) && clean_obj_fields rest) = true := h
          rw [Bool.and_eq_true, Bool.and_eq_true] at h'
          show (k, sanitize_event_value (Json.obj fs)) :: sanitize_obj_fields rest
              = (k, Json.obj fs) :: rest
          rw [sanitize_obj_fields_of_clean rest h'.2,
            sanitize_event_value_of_clean (Json.obj fs) h'.1.2]
end

set_option maxRecDepth 40000

/-- The key `stdout` as sanitization sees it. -/
def stdoutKey : List Char := "stdout".toList

/-- A 1201-character string, one over the event-field cap. -/
def longStr : List Char := List.replicate 1201 'a'

/-- Length of the string held by the first binding of an object. -/
def first_field_str_length : Json → Nat
  | .obj ((_, .str s) :: _) => s.length
  | _ => 0

/-- C9 counterexample: a `stdout` field of 1201 characters (one over the
1200 cap) is rewritten by sanitization to 1223 characters — the appended
elision annotation makes the field LONGER, so "truncation only shortens
those fields" is false. -/
theorem c9_truncation_lengthens_counterexample :
    first_field_str_length (Json.obj [(stdoutKey, Json.str longStr)]) = 1201
      ∧ first_field_str_length
          (sanitize_event_value (Json.obj [(stdoutKey, Json.str longStr)])) = 1223
      ∧ (1201 : Nat) < 1223 :=
  ⟨by decide, by decide, by decide⟩

/-- C9 (amended): the appended event line is the serialization of the
sanitized parsed value, or a verbatim copy of an unparseable line;
sanitization rewrites exactly the string fields named `aggregated_output`,
`stdout` or `stderr` (at any depth) whose character count exceeds 1200 —
everything else is unchanged — replacing such a field by its first 1200
characters plus the annotation `\n...[truncated N chars]`; the rewritten
field has `1222 + (digits of N)` characters, which for small overflows
(N ≤ 24) is not shorter than the original field. -/
theorem c9_event_sanitization_amended :
    (∀ (parsed : Option Json) (raw : String),
      (∃ v, parsed = some v
          ∧ event_line_rendered parsed raw
              = String.mk (serialize_json (sanitize_event_value v)))
        ∨ (parsed = none ∧ event_line_rendered parsed raw = raw))
      ∧ (∀ v, clean_json v = true → sanitize_event_value v = v)
      ∧ (∀ k v, is_target_key k = false → sanitize_field k v = v)
      ∧ (∀ k s, s.length ≤ MAX_EVENT_OUTPUT_CHARS → sanitize_field k (.str s) = .str s)
      ∧ (∀ k s, is_target_key k = true → MAX_EVENT_OUTPUT_CHARS < s.length →
          sanitize_field k (.str s)
              = .str (s.take MAX_EVENT_OUTPUT_CHARS
                  ++ elision_marker (s.length - MAX_EVENT_OUTPUT_CHARS))
            ∧ ∃ rest, s = s.take MAX_EVENT_OUTPUT_CHARS ++ rest)
      ∧ (∀ s : List Char, MAX_EVENT_OUTPUT_CHARS < s.length →
          (truncate_chars MAX_EVENT_OUTPUT_CHARS s).length
            = 1222 + (Nat.toDigits 10 (s.length - MAX_EVENT_OUTPUT_CHARS)).length) := by
  refine ⟨?_, sanitize_event_value_of_clean, ?_, ?_, ?_, ?_⟩
  · intro parsed raw
    cases parsed with
    | some v => exact Or.inl ⟨v, rfl, rfl⟩
    | none => exact Or.inr ⟨rfl, rfl⟩
  · intro k v hk
    simp [sanitize_field, hk]
  · intro k s hlen
    by_cases hk : is_target_key k = true <;>
      simp [sanitize_field, hk, truncate_chars, hlen]
  · intro k s hk hlen
    constructor
    · simp [sanitize_field, hk, truncate_chars, Nat.not_le.mpr hlen]
    · exact ⟨s.drop MAX_EVENT_OUTPUT_CHARS, (List.take_append_drop _ s).symm⟩
  · intro s hlen
    rw [truncate_chars, if_neg (Nat.not_le.mpr hlen)]
    have h14 : ("...[truncated ".toList).length = 14 := by decide
    have h7 : (" chars]".toList).length = 7 := by decide
    simp only [elision_marker, List.length_append, List.length_cons,
      List.length_take, h14, h7]
    have : min MAX_EVENT_OUTPUT_CHARS s.length = MAX_EVENT_OUTPUT_CHARS := by
      simp [MAX_EVENT_OUTPUT_CHARS] at hlen ⊢
      omega
    rw [this]
    simp [MAX_EVENT_OUTPUT_CHARS]
    omega

/-- A small clean event object. -/
def smallObj : Json := Json.obj [(stdoutKey, Json.str "ok".toList)]

/-- Witness for C9 (amended) at concrete inputs: a short `stdout` field is
untouched; the 1201-character field is rewritten to its 1200-character
prefix plus the annotation, with the predicted length. -/
theorem c9_event_sanitization_amended_witness :
    (clean_json smallObj = true ∧ sanitize_event_value smallObj = smallObj)
      ∧ (is_target_key stdoutKey = true
        ∧ MAX_EVENT_OUTPUT_CHARS < longStr.length
        ∧ sanitize_field stdoutKey (.str longStr)
            = .str (longStr.take MAX_EVENT_OUTPUT_CHARS
                ++ elision_marker (longStr.length - MAX_EVENT_OUTPUT_CHARS))
        ∧ (∃ rest, longStr = longStr.take MAX_EVENT_OUTPUT_CHARS ++ rest))
      ∧ (truncate_chars MAX_EVENT_OUTPUT_CHARS longStr).length
          = 1222 + (Nat.toDigits 10 (longStr.length - MAX_EVENT_OUTPUT_CHARS)).length := by
  have h1 := c9_event_sanitization_amended.2.1 smallObj (by decide)
  have h2 := c9_event_sanitization_amended.2.2.2.2.1 stdoutKey longStr
    (by decide) (by decide)
  have h3 := c9_event_sanitization_amended.2.2.2.2.2 longStr (by decide)
  exact ⟨⟨by decide, h1⟩, ⟨by decide, by decide, h2.1, h2.2⟩, h3⟩

end Crank
